import Mathlib

/-!
Shallow embedding of `src/Datos.py` (Open-Meteo historical weather downloader).

The script downloads hourly weather data as JSON, converts the `hourly`
block to a table, multiplies the two wind columns by 3.6, renames and
reorders the columns, normalises the timestamp format, and writes a CSV.
All errors are caught by two handlers (`requests.exceptions.HTTPError`
and a catch-all `except Exception`).

Numbers in JSON cells are modelled as rationals; machine floats of the
source are treated as exact arithmetic.  File contents are modelled as a
header line plus a list of rows.  `df.to_csv(path)` opens the path in
mode `w` — truncating whatever was there — and then streams the rows, so
the model lets a write fail on open (file untouched), fail after any
number of streamed rows (prior file destroyed, truncated file committed),
or complete.
-/

/-- A scalar value inside a JSON array / table cell: a number or a string. -/
inductive Cell where
  | num (q : ℚ)
  | str (s : String)
deriving DecidableEq, Repr

/-- A named column (Col): the JSON key together with its array of values. -/
abbrev Col := String × List Cell

/-- A pandas DataFrame: ordered association list of named columns
(`pd.DataFrame` keeps dict insertion order). -/
structure DataFrame where
  cols : List Col
deriving DecidableEq, Repr

/-- The Python exceptions the script can raise.  Every constructor models a
subclass of `Exception`; `httpError` models `requests.exceptions.HTTPError`. -/
inductive PyErr where
  | httpError (status : ℕ) (text : String)
  | connectionError
  | jsonError
  | keyError (k : String)
  | typeError
  | valueError
  | ioError
deriving DecidableEq, Repr

/-- Parsed JSON body, restricted to the shapes the script inspects. -/
inductive Json where
  | obj (fields : List (String × Json))
  | arr (cells : List Cell)
  | other

/-- The written CSV file: header row plus data rows (`index=False`). -/
structure CsvFile where
  header : List String
  rows : List (List Cell)
deriving DecidableEq, Repr

/-- A timestamp at minute precision, as handled by
`pd.to_datetime(...).dt.strftime("%Y-%m-%dT%H:%M")`. -/
structure DateTime where
  year : ℕ
  month : ℕ
  day : ℕ
  hour : ℕ
  minute : ℕ
deriving DecidableEq, Repr

/-- A calendar date, for `datetime.now().strftime("%Y-%m-%d")`. -/
structure Date where
  year : ℕ
  month : ℕ
  day : ℕ
deriving DecidableEq, Repr

/-- Decimal digit character. -/
def digitChar (n : ℕ) : Char :=
  if n = 0 then '0' else if n = 1 then '1' else if n = 2 then '2'
  else if n = 3 then '3' else if n = 4 then '4' else if n = 5 then '5'
  else if n = 6 then '6' else if n = 7 then '7' else if n = 8 then '8' else '9'

/-- Is the character a decimal digit (code 48..57)? -/
def isDigitCh (c : Char) : Bool := 48 ≤ c.toNat && c.toNat ≤ 57

/-- Numeric value of a digit character. -/
def digitVal (c : Char) : ℕ := c.toNat - 48

/-- Gregorian leap-year rule (as used by Python's datetime). -/
def isLeapYear (y : ℕ) : Bool :=
  (y % 4 == 0 && y % 100 != 0) || y % 400 == 0

/-- Days in a month (as validated by Python's datetime parsing). -/
def daysInMonth (y m : ℕ) : ℕ :=
  if m = 2 then (if isLeapYear y then 29 else 28)
  else if m = 4 ∨ m = 6 ∨ m = 9 ∨ m = 11 then 30
  else 31

/-- Calendar validity of a minute-precision timestamp. -/
def validDT (t : DateTime) : Bool :=
  decide (t.year < 10000) && decide (1 ≤ t.month) && decide (t.month ≤ 12) &&
  decide (1 ≤ t.day) && decide (t.day ≤ daysInMonth t.year t.month) &&
  decide (t.hour < 24) && decide (t.minute < 60)

/-- `strftime("%Y-%m-%dT%H:%M")`: fixed-width zero-padded rendering
(faithful for years below 10000, which is all a parsed timestamp can hold). -/
def formatTimestamp (t : DateTime) : String :=
  String.mk
    [digitChar (t.year / 1000 % 10), digitChar (t.year / 100 % 10),
     digitChar (t.year / 10 % 10), digitChar (t.year % 10), '-',
     digitChar (t.month / 10 % 10), digitChar (t.month % 10), '-',
     digitChar (t.day / 10 % 10), digitChar (t.day % 10), 'T',
     digitChar (t.hour / 10 % 10), digitChar (t.hour % 10), ':',
     digitChar (t.minute / 10 % 10), digitChar (t.minute % 10)]

/-- Character-level parser for `YYYY-MM-DDTHH:MM`. -/
def parseTSChars : List Char → Option DateTime
  | [y1, y2, y3, y4, s1, m1, m2, s2, d1, d2, s3, h1, h2, s4, n1, n2] =>
    if s1 = '-' ∧ s2 = '-' ∧ s3 = 'T' ∧ s4 = ':' then
      if isDigitCh y1 && isDigitCh y2 && isDigitCh y3 && isDigitCh y4 &&
         isDigitCh m1 && isDigitCh m2 && isDigitCh d1 && isDigitCh d2 &&
         isDigitCh h1 && isDigitCh h2 && isDigitCh n1 && isDigitCh n2 then
        if validDT
            { year := 1000 * digitVal y1 + 100 * digitVal y2 + 10 * digitVal y3 + digitVal y4
              month := 10 * digitVal m1 + digitVal m2
              day := 10 * digitVal d1 + digitVal d2
              hour := 10 * digitVal h1 + digitVal h2
              minute := 10 * digitVal n1 + digitVal n2 } then
          some
            { year := 1000 * digitVal y1 + 100 * digitVal y2 + 10 * digitVal y3 + digitVal y4
              month := 10 * digitVal m1 + digitVal m2
              day := 10 * digitVal d1 + digitVal d2
              hour := 10 * digitVal h1 + digitVal h2
              minute := 10 * digitVal n1 + digitVal n2 }
        else none
      else none
    else none
  | _ => none

/-- `pd.to_datetime` on an API timestamp string (the archive API returns
local time at minute precision, `YYYY-MM-DDTHH:MM`). -/
def parseTimestamp (s : String) : Option DateTime := parseTSChars s.data

/-- Does a string match the output format `YYYY-MM-DDTHH:MM` exactly? -/
def matchesTSFormat (s : String) : Bool :=
  match s.data with
  | [y1, y2, y3, y4, s1, m1, m2, s2, d1, d2, s3, h1, h2, s4, n1, n2] =>
    (s1 == '-') && (s2 == '-') && (s3 == 'T') && (s4 == ':') &&
    isDigitCh y1 && isDigitCh y2 && isDigitCh y3 && isDigitCh y4 &&
    isDigitCh m1 && isDigitCh m2 && isDigitCh d1 && isDigitCh d2 &&
    isDigitCh h1 && isDigitCh h2 && isDigitCh n1 && isDigitCh n2
  | _ => false

/-- `strftime("%Y-%m-%d")` on a date. -/
def formatDate (d : Date) : String :=
  String.mk
    [digitChar (d.year / 1000 % 10), digitChar (d.year / 100 % 10),
     digitChar (d.year / 10 % 10), digitChar (d.year % 10), '-',
     digitChar (d.month / 10 % 10), digitChar (d.month % 10), '-',
     digitChar (d.day / 10 % 10), digitChar (d.day % 10)]

/-- The calendar day before a date ("ayer" relative to `now`). -/
def prevDay (d : Date) : Date :=
  if 1 < d.day then { d with day := d.day - 1 }
  else if 1 < d.month then
    { year := d.year, month := d.month - 1, day := daysInMonth d.year (d.month - 1) }
  else { year := d.year - 1, month := 12, day := 31 }

/-- First-match lookup in an ordered association list (Python dict access). -/
def alookup {α : Type} (k : String) : List (String × α) → Option α
  | [] => none
  | p :: rest => if p.1 = k then some p.2 else alookup k rest

/-- Replace the value of the first entry with the given key. -/
def setFirst {α : Type} (k : String) (v : α) : List (String × α) → List (String × α)
  | [] => []
  | p :: rest => if p.1 = k then (k, v) :: rest else p :: setFirst k v rest

/-- Error-propagating map, the semantics of applying a fallible operation
element-wise (first failure aborts, as a raised Python exception does). -/
def mapExcept {α β : Type} (f : α → Except PyErr β) : List α → Except PyErr (List β)
  | [] => .ok []
  | x :: xs =>
    match f x with
    | .error e => .error e
    | .ok y =>
      match mapExcept f xs with
      | .error e => .error e
      | .ok ys => .ok (y :: ys)

/-- Value of a column, if present. -/
def DataFrame.colVal (df : DataFrame) (k : String) : Option (List Cell) :=
  alookup k df.cols

/-- `df[k]` read access: `KeyError` when the column is absent. -/
def DataFrame.getCol (df : DataFrame) (k : String) : Except PyErr (List Cell) :=
  match df.colVal k with
  | some v => .ok v
  | none => .error (.keyError k)

/-- `df[k] = v`: replace an existing column in place, else append it. -/
def DataFrame.setCol (df : DataFrame) (k : String) (v : List Cell) : DataFrame :=
  if (df.colVal k).isSome then ⟨setFirst k v df.cols⟩ else ⟨df.cols ++ [(k, v)]⟩

/-- `df.rename(columns=m)`: keys not mentioned in `m` are kept unchanged. -/
def renameKey (m : List (String × String)) (k : String) : String :=
  (alookup k m).getD k

/-- `df.rename(columns=m)` over every column. -/
def DataFrame.rename (df : DataFrame) (m : List (String × String)) : DataFrame :=
  ⟨df.cols.map fun p => (renameKey m p.1, p.2)⟩

/-- `df[ns]`: select columns in the given left-to-right order; `KeyError`
when one is absent. -/
def DataFrame.select (df : DataFrame) (ns : List String) : Except PyErr DataFrame :=
  match mapExcept (fun n =>
      match df.colVal n with
      | some v => Except.ok ((n, v) : Col)
      | none => Except.error (PyErr.keyError n)) ns with
  | .ok cols => .ok ⟨cols⟩
  | .error e => .error e

/-- `pd.DataFrame(dict)` demands arrays of equal length. -/
def allSameLength : List Col → Bool
  | [] => true
  | f :: rest => rest.all fun g => g.2.length == f.2.length

/-- `pd.DataFrame(dict)`: `ValueError` when array lengths differ. -/
def DataFrame.ofFields (fields : List Col) : Except PyErr DataFrame :=
  if allSameLength fields then .ok ⟨fields⟩ else .error .valueError

/-- The total function `· * f` on cells (strings untouched); used only in
statements about columns that are in fact numeric. -/
def timesCell (f : ℚ) : Cell → Cell
  | .num q => .num (q * f)
  | .str s => .str s

/-- `series * f` in pandas: multiplying a string cell raises `TypeError`. -/
def mulScalar (f : ℚ) (cells : List Cell) : Except PyErr (List Cell) :=
  mapExcept (fun c => match c with
    | Cell.num q => Except.ok (Cell.num (q * f))
    | Cell.str _ => Except.error PyErr.typeError) cells

/-- `pd.to_datetime(cell).strftime("%Y-%m-%dT%H:%M")` on one cell:
an unparseable or non-string cell raises. -/
def formatCell : Cell → Except PyErr Cell
  | Cell.str s =>
    match parseTimestamp s with
    | some t => .ok (Cell.str (formatTimestamp t))
    | none => .error .valueError
  | Cell.num _ => .error .valueError

/-- Number of rows of a DataFrame (length of its first column). -/
def DataFrame.nRows (df : DataFrame) : ℕ :=
  match df.cols with
  | [] => 0
  | c :: _ => c.2.length

/-- Row `i` of a DataFrame, read across its columns. -/
def DataFrame.row (df : DataFrame) (i : ℕ) : List Cell :=
  df.cols.map fun c => c.2.getD i (Cell.str "")

/-- `df.to_csv(path, index=False, encoding="utf-8")`: header row from the
column names, then one row per index. -/
def DataFrame.toCsv (df : DataFrame) : CsvFile :=
  { header := df.cols.map Prod.fst
    rows := (List.range df.nRows).map df.row }

/-- The nine requested hourly variables (`variables_horarias`, Datos.py 21-31). -/
def variables_horarias : List String :=
  ["temperature_2m", "relative_humidity_2m", "dewpoint_2m", "pressure_msl",
   "precipitation", "wind_speed_10m", "wind_gusts_10m", "wind_direction_10m",
   "weathercode"]

/-- The JSON keys of a well-formed `hourly` object: `time` plus the nine
requested variables. -/
def expectedKeys : List String := "time" :: variables_horarias

/-- The rename mapping of Datos.py lines 62-73. -/
def renameMap : List (String × String) :=
  [("time", "fecha_hora"), ("temperature_2m", "temperatura_C"),
   ("relative_humidity_2m", "humedad_%"), ("dewpoint_2m", "punto_rocio_C"),
   ("pressure_msl", "presion_hPa"), ("precipitation", "precipitacion_mm"),
   ("wind_speed_10m", "viento_velocidad_kmh"), ("wind_gusts_10m", "viento_rafaga_kmh"),
   ("wind_direction_10m", "viento_direccion_°"), ("weathercode", "codigo_clima_wmo")]

/-- `columnas_finales` of Datos.py lines 76-80: fixed output column order. -/
def columnas_finales : List String :=
  ["fecha_hora", "temperatura_C", "humedad_%", "punto_rocio_C", "presion_hPa",
   "precipitacion_mm", "viento_velocidad_kmh", "viento_rafaga_kmh",
   "viento_direccion_°", "codigo_clima_wmo"]

/-- The source-to-output name pairs whose values pass through unchanged
(everything except the two wind fields, which are scaled, and `time`,
which is reformatted). -/
def passthroughPairs : List (String × String) :=
  [("temperature_2m", "temperatura_C"), ("relative_humidity_2m", "humedad_%"),
   ("dewpoint_2m", "punto_rocio_C"), ("pressure_msl", "presion_hPa"),
   ("precipitation", "precipitacion_mm"), ("wind_direction_10m", "viento_direccion_°"),
   ("weathercode", "codigo_clima_wmo")]

/-- Transformer, last stage (Datos.py 76-87): reorder the columns to
`columnas_finales`, then reformat `fecha_hora` via
`pd.to_datetime(...).dt.strftime("%Y-%m-%dT%H:%M")`. -/
def transformC (df3 : DataFrame) : Except PyErr DataFrame :=
  match df3.select columnas_finales with
  | .error e => .error e
  | .ok df4 =>
    match df4.getCol "fecha_hora" with
    | .error e => .error e
    | .ok tcol =>
      match mapExcept formatCell tcol with
      | .error e => .error e
      | .ok tcol2 => .ok (df4.setCol "fecha_hora" tcol2)

/-- Transformer, middle stage (Datos.py 59-73): scale `wind_gusts_10m`
by 3.6 and rename all columns per `renameMap`. -/
def transformB (df1 : DataFrame) : Except PyErr DataFrame :=
  match df1.getCol "wind_gusts_10m" with
  | .error e => .error e
  | .ok gust =>
    match mulScalar ((36 : ℚ) / 10) gust with
    | .error e => .error e
    | .ok gust2 =>
      transformC ((df1.setCol "wind_gusts_10m" gust2).rename renameMap)

/-- Transformer (Datos.py 55-87): build the DataFrame from the `hourly`
object, scale `wind_speed_10m` by 3.6, then the remaining stages.
`3.6` is written as the exact rational `36/10`. -/
def transform (hourly : List Col) : Except PyErr DataFrame :=
  match DataFrame.ofFields hourly with
  | .error e => .error e
  | .ok df0 =>
    match df0.getCol "wind_speed_10m" with
    | .error e => .error e
    | .ok speed =>
      match mulScalar ((36 : ℚ) / 10) speed with
      | .error e => .error e
      | .ok speed2 =>
        transformB (df0.setCol "wind_speed_10m" speed2)

/-- `data["hourly"]`: `KeyError` when absent, `TypeError` when `data` is
not an object. -/
def Json.get (j : Json) (k : String) : Except PyErr Json :=
  match j with
  | .obj fields =>
    match alookup k fields with
    | some v => .ok v
    | none => .error (.keyError k)
  | _ => .error .typeError

/-- View the `hourly` JSON value as named arrays of cells
(what `pd.DataFrame` consumes); anything else raises. -/
def hourlyFields : Json → Except PyErr (List Col)
  | Json.obj fields =>
    mapExcept (fun p => match p.2 with
      | Json.arr cells => Except.ok ((p.1, cells) : Col)
      | _ => Except.error PyErr.valueError) fields
  | _ => .error .valueError

/-- An HTTP response: status code, raw text, and parsed JSON body
(`none` models a body on which `response.json()` raises). -/
structure Response where
  status : ℕ
  text : String
  body : Option Json

/-- Outcome of `requests.get`: a network-level failure or a response. -/
inductive FetchOutcome where
  | netFail
  | got (r : Response)

/-- How `df.to_csv(path)` fares.  The path is opened in mode `w`, which
truncates an existing file BEFORE any row is streamed, so a failure mid-way
commits a truncated file: `openFail` — `open()` itself raises (unwritable
path) and the file is untouched; `failAfter k` — the header and the first
`k` data rows were streamed when an I/O error was raised; `written` — the
whole serialisation reached the disk. -/
inductive WriteOutcome where
  | openFail
  | failAfter (k : ℕ)
  | written

/-- The outside world of one run: what the network returns and how the
write to the output path fares. -/
structure Env where
  fetch : FetchOutcome
  write : WriteOutcome

/-- The whole `try` block of `descargar_datos_historicos` (Datos.py 45-90):
fetch, `raise_for_status` (raises `HTTPError` on 4xx/5xx), `response.json()`,
`data["hourly"]`, the transformation, and `to_csv`.  `file0` is the file at
`archivo_csv` on entry.  Returns the file at that path after the block ran,
together with the written contents on success or the raised exception:
only the `to_csv` step touches the file, and a mid-write failure leaves a
truncated file behind. -/
def runPipeline (env : Env) (file0 : Option CsvFile) :
    Option CsvFile × Except PyErr CsvFile :=
  match env.fetch with
  | .netFail => (file0, .error .connectionError)
  | .got r =>
    if 400 ≤ r.status ∧ r.status < 600 then (file0, .error (.httpError r.status r.text))
    else
      match r.body with
      | none => (file0, .error .jsonError)
      | some data =>
        match data.get "hourly" with
        | .error e => (file0, .error e)
        | .ok hj =>
          match hourlyFields hj with
          | .error e => (file0, .error e)
          | .ok fields =>
            match transform fields with
            | .error e => (file0, .error e)
            | .ok df =>
              match env.write with
              | .openFail => (file0, .error .ioError)
              | .failAfter k =>
                (some { header := df.toCsv.header, rows := df.toCsv.rows.take k },
                 .error .ioError)
              | .written => (some df.toCsv, .ok df.toCsv)

/-- The request parameter mapping (Datos.py 34-41). -/
structure Params where
  latitude : ℚ
  longitude : ℚ
  start_date : String
  end_date : String
  hourly : String
  timezone : String
deriving DecidableEq, Repr

/-- Build the request parameters (Datos.py 34-41). -/
def buildParams (lat lon : ℚ) (sd ed : String) : Params :=
  { latitude := lat, longitude := lon, start_date := sd, end_date := ed,
    hourly := String.intercalate "," variables_horarias,
    timezone := "America/Mexico_City" }

/-- Console messages the function prints. -/
inductive LogMsg where
  | solicitando (sd ed : String)
  | guardado (n : ℕ) (path : String)
  | errorHTTP (status : ℕ) (bodyText : String)
  | errorInesperado (e : PyErr)
deriving DecidableEq, Repr

/-- Is the raised value a Python `Exception` (caught by `except Exception`)?
Every error the modelled operations raise is one. -/
def isException : PyErr → Bool
  | .httpError _ _ => true
  | .connectionError => true
  | .jsonError => true
  | .keyError _ => true
  | .typeError => true
  | .valueError => true
  | .ioError => true

/-- The console message a caught error produces (Datos.py 92-96). -/
def errorLog : PyErr → LogMsg
  | PyErr.httpError st txt => LogMsg.errorHTTP st txt
  | e => LogMsg.errorInesperado e

/-- Observable result of one call of `descargar_datos_historicos`: the
request parameters sent, the file at `archivo_csv` after the call, the
console log, and any exception that escaped the function. -/
structure RunState where
  sentParams : Params
  file : Option CsvFile
  log : List LogMsg
  uncaught : Option PyErr
deriving DecidableEq, Repr

/-- `descargar_datos_historicos` (Datos.py 13-96).  `file0` is the file at
`archivo_csv` before the call.  The `try` body is `runPipeline`, whose first
component is the file at the output path when the body finished or raised;
the first handler catches `requests.exceptions.HTTPError`, the second
catches every other `Exception` — neither touches the file. -/
def descargar_datos_historicos (lat lon : ℚ) (start_date end_date archivo_csv : String)
    (env : Env) (file0 : Option CsvFile) : RunState :=
  match runPipeline env file0 with
  | (_, .ok csv) =>
    { sentParams := buildParams lat lon start_date end_date
      file := some csv
      log := [.solicitando start_date end_date, .guardado csv.rows.length archivo_csv]
      uncaught := none }
  | (file1, .error (PyErr.httpError st txt)) =>
    { sentParams := buildParams lat lon start_date end_date
      file := file1
      log := [.solicitando start_date end_date, .errorHTTP st txt]
      uncaught := none }
  | (file1, .error e) =>
    if isException e then
      { sentParams := buildParams lat lon start_date end_date
        file := file1
        log := [.solicitando start_date end_date, .errorInesperado e]
        uncaught := none }
    else
      { sentParams := buildParams lat lon start_date end_date
        file := file1
        log := [.solicitando start_date end_date]
        uncaught := some e }

/-- Datos.py 105: latitude of Gustavo A. Madero. -/
def LATITUD : ℚ := 19.5047

/-- Datos.py 106: longitude of Gustavo A. Madero. -/
def LONGITUD : ℚ := -99.1469

/-- Datos.py 110: `FECHA_FIN = datetime.now().strftime("%Y-%m-%d")` —
the end date actually sent is the CURRENT date, not the day before. -/
def FECHA_FIN (now : Date) : String := formatDate now

/-- Datos.py 114: output path. -/
def ARCHIVO_SALIDA : String := "historico_clima_2024-2025_CDMX2.csv"

/-- Datos.py 117-119: delete the previous output file when it exists. -/
def borrarAnterior (file0 : Option CsvFile) : Option CsvFile :=
  match file0 with
  | some _ => none
  | none => none

/-- Observable result of the `__main__` block. -/
structure MainResult where
  run : RunState
  exitCode : ℕ
deriving DecidableEq, Repr

/-- The `__main__` block (Datos.py 102-127): fixed coordinates, start date
`2024-01-01`, end date from `datetime.now()`, delete any previous output
file, then call the download function.  The process exit code is 0 unless
an exception escapes. -/
def mainRun (now : Date) (env : Env) (file0 : Option CsvFile) : MainResult :=
  { run := descargar_datos_historicos LATITUD LONGITUD "2024-01-01" (FECHA_FIN now)
      ARCHIVO_SALIDA env (borrarAnterior file0)
    exitCode :=
      if (descargar_datos_historicos LATITUD LONGITUD "2024-01-01" (FECHA_FIN now)
          ARCHIVO_SALIDA env (borrarAnterior file0)).uncaught.isSome then 1 else 0 }

/-- A concrete HTTP 400 environment (server rejects the request). -/
def env400 : Env :=
  { fetch := .got { status := 400, text := "Bad Request", body := none }
    write := .written }

/-- A concrete pre-existing output file from an earlier run. -/
def oldCsv : CsvFile := { header := ["x"], rows := [[Cell.num 1]] }

/-- An `hourly` object mapping every expected key to an empty array. -/
def emptyHourlyJson : Json :=
  Json.obj
    [("time", Json.arr []), ("temperature_2m", Json.arr []),
     ("relative_humidity_2m", Json.arr []), ("dewpoint_2m", Json.arr []),
     ("pressure_msl", Json.arr []), ("precipitation", Json.arr []),
     ("wind_speed_10m", Json.arr []), ("wind_gusts_10m", Json.arr []),
     ("wind_direction_10m", Json.arr []), ("weathercode", Json.arr [])]

/-- A successful response whose `hourly` arrays are all empty. -/
def respEmpty : Response :=
  { status := 200, text := "ok", body := some (Json.obj [("hourly", emptyHourlyJson)]) }

/-- A successful environment whose `hourly` arrays are all empty. -/
def envEmpty : Env := { fetch := .got respEmpty, write := .written }

/-- A concrete one-row `hourly` object with its keys in scrambled order. -/
def exHourly : List Col :=
  [("temperature_2m", [Cell.num 21]), ("time", [Cell.str "2024-01-01T05:07"]),
   ("wind_gusts_10m", [Cell.num 5]), ("relative_humidity_2m", [Cell.num 40]),
   ("dewpoint_2m", [Cell.num 7]), ("pressure_msl", [Cell.num 1013]),
   ("weathercode", [Cell.num 3]), ("precipitation", [Cell.num 0]),
   ("wind_speed_10m", [Cell.num 10]), ("wind_direction_10m", [Cell.num 180])]

/-- The transformed table of `exHourly`. -/
def exDf : DataFrame :=
  ⟨[("fecha_hora", [Cell.str "2024-01-01T05:07"]),
    ("temperatura_C", [Cell.num 21]), ("humedad_%", [Cell.num 40]),
    ("punto_rocio_C", [Cell.num 7]), ("presion_hPa", [Cell.num 1013]),
    ("precipitacion_mm", [Cell.num 0]), ("viento_velocidad_kmh", [Cell.num 36]),
    ("viento_rafaga_kmh", [Cell.num 18]), ("viento_direccion_°", [Cell.num 180]),
    ("codigo_clima_wmo", [Cell.num 3])]⟩

/-- `exHourly` as the JSON body of a successful response. -/
def respRow : Response :=
  { status := 200, text := "ok"
    body := some (Json.obj [("hourly",
      Json.obj
        [("temperature_2m", Json.arr [Cell.num 21]),
         ("time", Json.arr [Cell.str "2024-01-01T05:07"]),
         ("wind_gusts_10m", Json.arr [Cell.num 5]),
         ("relative_humidity_2m", Json.arr [Cell.num 40]),
         ("dewpoint_2m", Json.arr [Cell.num 7]),
         ("pressure_msl", Json.arr [Cell.num 1013]),
         ("weathercode", Json.arr [Cell.num 3]),
         ("precipitation", Json.arr [Cell.num 0]),
         ("wind_speed_10m", Json.arr [Cell.num 10]),
         ("wind_direction_10m", Json.arr [Cell.num 180])])]) }

/-- An environment with a good one-row response whose `to_csv` call raises
right after the header was streamed (the disk filled up, say): the prior
file is already truncated away by the mode-`w` open. -/
def envPartial : Env := { fetch := .got respRow, write := .failAfter 0 }

/-- The same one-row response with a write that completes. -/
def envWritten : Env := { fetch := .got respRow, write := .written }

/-- `transform exHourly` evaluated: `rfl` computes everything except the two
`Rat` products (whose definitions are irreducible), which `norm_num` closes. -/
lemma transform_exHourly : transform exHourly = Except.ok exDf := by
  have h : transform exHourly = Except.ok
      (⟨[("fecha_hora", [Cell.str "2024-01-01T05:07"]),
         ("temperatura_C", [Cell.num 21]), ("humedad_%", [Cell.num 40]),
         ("punto_rocio_C", [Cell.num 7]), ("presion_hPa", [Cell.num 1013]),
         ("precipitacion_mm", [Cell.num 0]),
         ("viento_velocidad_kmh", [Cell.num ((10 : ℚ) * ((36 : ℚ) / 10))]),
         ("viento_rafaga_kmh", [Cell.num ((5 : ℚ) * ((36 : ℚ) / 10))]),
         ("viento_direccion_°", [Cell.num 180]),
         ("codigo_clima_wmo", [Cell.num 3])]⟩ : DataFrame) := rfl
  rw [h]
  norm_num [exDf]

lemma alookup_setFirst_self {α : Type} (k : String) (v : α) (l : List (String × α))
    (h : (alookup k l).isSome) : alookup k (setFirst k v l) = some v := by
  induction l with
  | nil => simp [alookup] at h
  | cons p rest ih =>
    by_cases hp : p.1 = k
    · simp [setFirst, hp, alookup]
    · simp only [alookup, hp, if_false] at h
      simp only [setFirst, hp, if_false, alookup]
      exact ih h

lemma alookup_setFirst_ne {α : Type} (k k2 : String) (v : α) (l : List (String × α))
    (h : k ≠ k2) : alookup k2 (setFirst k v l) = alookup k2 l := by
  induction l with
  | nil => rfl
  | cons p rest ih =>
    by_cases hp : p.1 = k
    · simp [setFirst, hp, alookup, h, hp.symm ▸ h]
    · simp [setFirst, hp, alookup, ih]

lemma setFirst_map_fst {α : Type} (k : String) (v : α) (l : List (String × α)) :
    (setFirst k v l).map Prod.fst = l.map Prod.fst := by
  induction l with
  | nil => rfl
  | cons p rest ih =>
    by_cases hp : p.1 = k
    · simp [setFirst, hp]
    · simp [setFirst, hp, ih]

lemma alookup_rename_map {α : Type} (l : List (String × α)) (m : List (String × String))
    (src tgt : String)
    (h : ∀ k ∈ l.map Prod.fst, (renameKey m k = tgt ↔ k = src)) :
    alookup tgt (l.map fun p => (renameKey m p.1, p.2)) = alookup src l := by
  induction l with
  | nil => rfl
  | cons p rest ih =>
    by_cases hp : renameKey m p.1 = tgt
    · have hsrc : p.1 = src := (h p.1 (by simp)).mp hp
      simp only [List.map_cons, alookup]
      rw [if_pos hp, if_pos hsrc]
    · have hsrc : p.1 ≠ src := fun hh => hp ((h p.1 (by simp)).mpr hh)
      simp only [List.map_cons, alookup, hp, if_false, hsrc]
      exact ih fun k hk => h k (by simp [hk])

lemma mapExcept_ok_forall₂ {α β : Type} (f : α → Except PyErr β) :
    ∀ (xs : List α) (ys : List β), mapExcept f xs = .ok ys →
      List.Forall₂ (fun x y => f x = Except.ok y) xs ys := by
  intro xs
  induction xs with
  | nil =>
    intro ys h
    simp only [mapExcept] at h
    cases h
    exact List.Forall₂.nil
  | cons x xs ih =>
    intro ys h
    simp only [mapExcept] at h
    split at h
    · cases h
    next y hy =>
      split at h
      · cases h
      next ys2 hys2 =>
        cases h
        exact List.Forall₂.cons hy (ih ys2 hys2)

lemma forall₂_mem_right {α β : Type} {R : α → β → Prop} {xs : List α} {ys : List β}
    (h : List.Forall₂ R xs ys) {y : β} (hy : y ∈ ys) : ∃ x ∈ xs, R x y := by
  induction h with
  | nil => simp at hy
  | cons hr hrest ih =>
    rcases List.mem_cons.mp hy with rfl | hy2
    · exact ⟨_, List.mem_cons_self _ _, hr⟩
    · obtain ⟨x, hx, hR⟩ := ih hy2
      exact ⟨x, List.mem_cons_of_mem _ hx, hR⟩

lemma mulScalar_ok_map (r : ℚ) : ∀ (cells out : List Cell),
    mulScalar r cells = .ok out → out = cells.map (timesCell r) := by
  intro cells
  induction cells with
  | nil =>
    intro out h
    simp only [mulScalar, mapExcept] at h
    cases h
    rfl
  | cons c cs ih =>
    intro out h
    simp only [mulScalar, mapExcept] at h
    split at h
    · cases h
    next y hy =>
      split at h
      · cases h
      next ys hys =>
        cases h
        cases c with
        | num q =>
          cases hy
          have := ih ys (by simpa [mulScalar] using hys)
          simp [List.map, timesCell, this]
        | str s => cases hy

lemma isDigitCh_digitChar (n : ℕ) : isDigitCh (digitChar n) = true := by
  unfold digitChar
  split_ifs <;> decide

lemma digitVal_digitChar (n : ℕ) (h : n < 10) : digitVal (digitChar n) = n := by
  interval_cases n <;> decide

lemma digitVal_digitChar_mod (n : ℕ) : digitVal (digitChar (n % 10)) = n % 10 :=
  digitVal_digitChar _ (Nat.mod_lt _ (by norm_num))

/-- Formatting a calendar-valid timestamp and parsing it back returns the
same timestamp. -/
lemma parse_format (t : DateTime) (h : validDT t = true) :
    parseTimestamp (formatTimestamp t) = some t := by
  obtain ⟨y, mo, d, hh, mi⟩ := t
  have hb := h
  simp only [validDT, Bool.and_eq_true, decide_eq_true_eq] at hb
  obtain ⟨⟨⟨⟨⟨⟨hy, hmo1⟩, hmo2⟩, hd1⟩, hd2⟩, hhh⟩, hmi⟩ := hb
  have hd31 : daysInMonth y mo ≤ 31 := by
    unfold daysInMonth
    split_ifs <;> norm_num
  have e1 : 1000 * (y / 1000 % 10) + 100 * (y / 100 % 10) + 10 * (y / 10 % 10) + y % 10 = y := by
    omega
  have e2 : 10 * (mo / 10 % 10) + mo % 10 = mo := by omega
  have e3 : 10 * (d / 10 % 10) + d % 10 = d := by omega
  have e4 : 10 * (hh / 10 % 10) + hh % 10 = hh := by omega
  have e5 : 10 * (mi / 10 % 10) + mi % 10 = mi := by omega
  simp only [parseTimestamp, formatTimestamp, parseTSChars]
  rw [if_pos (by simp)]
  simp only [isDigitCh_digitChar, Bool.and_self, if_true, digitVal_digitChar_mod]
  simp only [e1, e2, e3, e4, e5]
  rw [if_pos h]

/-- Whatever `parseTimestamp` accepts is calendar-valid. -/
lemma parse_valid (s : String) (t : DateTime) (h : parseTimestamp s = some t) :
    validDT t = true := by
  unfold parseTimestamp parseTSChars at h
  split at h
  · split at h
    · split at h
      · split at h
        next hv =>
          cases h
          exact hv
        · cases h
      · cases h
    · cases h
  · cases h

/-- Every formatted timestamp matches `YYYY-MM-DDTHH:MM` exactly. -/
lemma matchesTSFormat_format (t : DateTime) :
    matchesTSFormat (formatTimestamp t) = true := by
  simp [matchesTSFormat, formatTimestamp, isDigitCh_digitChar]

lemma getCol_ok {df : DataFrame} {k : String} {v : List Cell}
    (h : df.getCol k = .ok v) : df.colVal k = some v := by
  unfold DataFrame.getCol at h
  split at h
  · cases h; assumption
  · cases h

lemma colVal_setCol_self (df : DataFrame) (k : String) (v : List Cell)
    (h : (df.colVal k).isSome) : (df.setCol k v).colVal k = some v := by
  unfold DataFrame.setCol
  rw [if_pos h]
  exact alookup_setFirst_self k v df.cols h

lemma colVal_setCol_ne (df : DataFrame) (k k2 : String) (v : List Cell)
    (h : k ≠ k2) : (df.setCol k v).colVal k2 = df.colVal k2 := by
  unfold DataFrame.setCol
  split
  · exact alookup_setFirst_ne k k2 v df.cols h
  · show alookup k2 (df.cols ++ [(k, v)]) = alookup k2 df.cols
    induction df.cols with
    | nil => simp [alookup, h]
    | cons p rest ih =>
      by_cases hp : p.1 = k2
      · simp [alookup, hp]
      · simp [alookup, hp, ih]

lemma setCol_map_fst (df : DataFrame) (k : String) (v : List Cell)
    (h : (df.colVal k).isSome) :
    (df.setCol k v).cols.map Prod.fst = df.cols.map Prod.fst := by
  unfold DataFrame.setCol
  rw [if_pos h]
  exact setFirst_map_fst k v df.cols

lemma select_cols_spec (df : DataFrame) :
    ∀ (ns : List String) (cols : List Col),
    mapExcept (fun n =>
      match df.colVal n with
      | some v => Except.ok ((n, v) : Col)
      | none => Except.error (PyErr.keyError n)) ns = .ok cols →
    cols.map Prod.fst = ns ∧ ∀ n ∈ ns, alookup n cols = df.colVal n := by
  intro ns
  induction ns with
  | nil =>
    intro cols h
    simp only [mapExcept] at h
    cases h
    exact ⟨rfl, by simp⟩
  | cons n ns ih =>
    intro cols h
    simp only [mapExcept] at h
    split at h
    · cases h
    next p hp =>
      split at h
      · cases h
      next cols2 hcols2 =>
        cases h
        obtain ⟨hmap, hrest⟩ := ih cols2 hcols2
        have hpn : ∃ v, df.colVal n = some v ∧ p = (n, v) := by
          revert hp
          cases hv : df.colVal n with
          | none => intro hp; cases hp
          | some v => intro hp; cases hp; exact ⟨v, rfl, rfl⟩
        obtain ⟨v, hv, rfl⟩ := hpn
        constructor
        · simp [hmap]
        · intro n2 hn2
          by_cases hne : n = n2
          · subst hne
            simp only [alookup, if_pos rfl]
            exact hv.symm
          · have hn2m : n2 ∈ ns := by
              rcases List.mem_cons.mp hn2 with rfl | hm
              · exact absurd rfl hne
              · exact hm
            simp only [alookup]
            rw [if_neg hne]
            exact hrest n2 hn2m

lemma select_ok {df df4 : DataFrame} {ns : List String}
    (h : df.select ns = .ok df4) :
    df4.cols.map Prod.fst = ns ∧ ∀ n ∈ ns, df4.colVal n = df.colVal n := by
  unfold DataFrame.select at h
  split at h
  next cols hcols =>
    cases h
    obtain ⟨h1, h2⟩ := select_cols_spec df ns cols hcols
    exact ⟨h1, h2⟩
  · cases h

lemma transformC_ok {df3 df : DataFrame} (h : transformC df3 = .ok df) :
    ∃ df4 tcol tcol2,
      df3.select columnas_finales = .ok df4 ∧
      df4.colVal "fecha_hora" = some tcol ∧
      mapExcept formatCell tcol = .ok tcol2 ∧
      df = df4.setCol "fecha_hora" tcol2 := by
  unfold transformC at h
  split at h
  · cases h
  next df4 hsel =>
    split at h
    · cases h
    next tcol htcol =>
      split at h
      · cases h
      next tcol2 htcol2 =>
        cases h
        exact ⟨df4, tcol, tcol2, hsel, getCol_ok htcol, htcol2, rfl⟩

lemma transformB_ok {df1 : DataFrame} {df : DataFrame} (h : transformB df1 = .ok df) :
    ∃ gust gust2,
      df1.colVal "wind_gusts_10m" = some gust ∧
      mulScalar ((36 : ℚ) / 10) gust = .ok gust2 ∧
      transformC ((df1.setCol "wind_gusts_10m" gust2).rename renameMap) = .ok df := by
  unfold transformB at h
  split at h
  · cases h
  next gust hgust =>
    split at h
    · cases h
    next gust2 hgust2 =>
      exact ⟨gust, gust2, getCol_ok hgust, hgust2, h⟩

lemma transform_ok {hourly : List Col} {df : DataFrame} (h : transform hourly = .ok df) :
    ∃ speed speed2,
      alookup "wind_speed_10m" hourly = some speed ∧
      mulScalar ((36 : ℚ) / 10) speed = .ok speed2 ∧
      transformB ((DataFrame.mk hourly).setCol "wind_speed_10m" speed2) = .ok df := by
  unfold transform at h
  split at h
  · cases h
  next df0 hof =>
    have hdf0 : df0 = DataFrame.mk hourly := by
      unfold DataFrame.ofFields at hof
      split at hof
      · cases hof; rfl
      · cases hof
    subst hdf0
    split at h
    · cases h
    next speed hspeed =>
      split at h
      · cases h
      next speed2 hspeed2 =>
        exact ⟨speed, speed2, getCol_ok hspeed, hspeed2, h⟩

/-- Under the rename map, target names pin down their unique source name
among the expected keys. -/
lemma rename_unique :
    ∀ st ∈ renameMap, ∀ k ∈ expectedKeys, (renameKey renameMap k = st.2 ↔ k = st.1) := by
  decide

lemma renameMap_tgt_mem : ∀ st ∈ renameMap, st.2 ∈ columnas_finales := by
  decide

/-- Master characterisation of a successful transformation, for an `hourly`
object holding exactly the expected keys in any order: fixed header, the
wind columns scaled by 36/10, every other variable passed through, and the
`fecha_hora` column obtained cell-wise by `formatCell` from `time`. -/
lemma transform_ok_spec {hourly : List Col} {df : DataFrame}
    (hperm : (hourly.map Prod.fst).Perm expectedKeys)
    (hok : transform hourly = .ok df) :
    df.cols.map Prod.fst = columnas_finales ∧
    (∀ src tgt, (src, tgt) ∈ renameMap → tgt ≠ "fecha_hora" →
      src ≠ "wind_speed_10m" → src ≠ "wind_gusts_10m" →
      df.colVal tgt = alookup src hourly) ∧
    df.colVal "viento_velocidad_kmh" =
      (alookup "wind_speed_10m" hourly).map (List.map (timesCell ((36 : ℚ) / 10))) ∧
    df.colVal "viento_rafaga_kmh" =
      (alookup "wind_gusts_10m" hourly).map (List.map (timesCell ((36 : ℚ) / 10))) ∧
    ∃ tIn tOut, alookup "time" hourly = some tIn ∧ df.colVal "fecha_hora" = some tOut ∧
      List.Forall₂ (fun c c2 => formatCell c = Except.ok c2) tIn tOut := by
  obtain ⟨speed, speed2, hws, hmuls, hB⟩ := transform_ok hok
  obtain ⟨gust, gust2, hwg, hmulg, hC⟩ := transformB_ok hB
  obtain ⟨df4, tcol, tcol2, hsel, hfh, hmapt, hdf⟩ := transformC_ok hC
  have hws0 : (DataFrame.mk hourly).colVal "wind_speed_10m" = some speed := hws
  have h1ws : ((DataFrame.mk hourly).setCol "wind_speed_10m" speed2).colVal
      "wind_speed_10m" = some speed2 :=
    colVal_setCol_self _ _ _ (by simp [hws0])
  have h2ws : (((DataFrame.mk hourly).setCol "wind_speed_10m" speed2).setCol
      "wind_gusts_10m" gust2).colVal "wind_speed_10m" = some speed2 := by
    rw [colVal_setCol_ne _ _ _ _ (by decide)]
    exact h1ws
  have h2wg : (((DataFrame.mk hourly).setCol "wind_speed_10m" speed2).setCol
      "wind_gusts_10m" gust2).colVal "wind_gusts_10m" = some gust2 :=
    colVal_setCol_self _ _ _ (by simp [hwg])
  have h2other : ∀ src, src ≠ "wind_speed_10m" → src ≠ "wind_gusts_10m" →
      (((DataFrame.mk hourly).setCol "wind_speed_10m" speed2).setCol
        "wind_gusts_10m" gust2).colVal src = alookup src hourly := by
    intro src hsws hswg
    rw [colVal_setCol_ne _ _ _ _ (Ne.symm hswg), colVal_setCol_ne _ _ _ _ (Ne.symm hsws)]
    rfl
  have hkeys1 : ((DataFrame.mk hourly).setCol "wind_speed_10m" speed2).cols.map
      Prod.fst = hourly.map Prod.fst :=
    setCol_map_fst _ _ _ (by simp [hws0])
  have hkeys2 : (((DataFrame.mk hourly).setCol "wind_speed_10m" speed2).setCol
      "wind_gusts_10m" gust2).cols.map Prod.fst = hourly.map Prod.fst := by
    rw [setCol_map_fst _ _ _ (by simp [hwg])]
    exact hkeys1
  have hren : ∀ src tgt, (src, tgt) ∈ renameMap →
      ((((DataFrame.mk hourly).setCol "wind_speed_10m" speed2).setCol
        "wind_gusts_10m" gust2).rename renameMap).colVal tgt =
      (((DataFrame.mk hourly).setCol "wind_speed_10m" speed2).setCol
        "wind_gusts_10m" gust2).colVal src := by
    intro src tgt hst
    apply alookup_rename_map
    intro k hk
    rw [hkeys2] at hk
    exact rename_unique (src, tgt) hst k (hperm.mem_iff.mp hk)
  have hwg0 : alookup "wind_gusts_10m" hourly = some gust := by
    have h := colVal_setCol_ne (DataFrame.mk hourly) "wind_speed_10m"
      "wind_gusts_10m" speed2 (by decide)
    rw [h] at hwg
    exact hwg
  obtain ⟨hhdr4, hsame⟩ := select_ok hsel
  subst hdf
  have hfin_ne : ∀ tgt, tgt ≠ "fecha_hora" →
      (df4.setCol "fecha_hora" tcol2).colVal tgt = df4.colVal tgt :=
    fun tgt h => colVal_setCol_ne _ _ _ _ (Ne.symm h)
  refine ⟨?_, ?_, ?_, ?_, ?_⟩
  · rw [setCol_map_fst _ _ _ (by simp [hfh])]
    exact hhdr4
  · intro src tgt hst htf hnws hnwg
    rw [hfin_ne tgt htf, hsame tgt (renameMap_tgt_mem (src, tgt) hst),
      hren src tgt hst, h2other src hnws hnwg]
  · rw [hfin_ne _ (by decide), hsame _ (by decide),
      hren "wind_speed_10m" "viento_velocidad_kmh" (by decide), h2ws, hws,
      mulScalar_ok_map _ _ _ hmuls]
    rfl
  · rw [hfin_ne _ (by decide), hsame _ (by decide),
      hren "wind_gusts_10m" "viento_rafaga_kmh" (by decide), h2wg, hwg0,
      mulScalar_ok_map _ _ _ hmulg]
    rfl
  · refine ⟨tcol, tcol2, ?_, ?_, mapExcept_ok_forall₂ formatCell tcol tcol2 hmapt⟩
    · rw [← h2other "time" (by decide) (by decide),
        ← hren "time" "fecha_hora" (by decide), ← hsame "fecha_hora" (by decide)]
      exact hfh
    · exact colVal_setCol_self _ _ _ (by simp [hfh])

lemma formatCell_ok {c c2 : Cell} (h : formatCell c = .ok c2) :
    ∃ s t, c = Cell.str s ∧ parseTimestamp s = some t ∧
      c2 = Cell.str (formatTimestamp t) := by
  cases c with
  | num q => simp [formatCell] at h
  | str s =>
    simp only [formatCell] at h
    cases hp : parseTimestamp s with
    | none =>
      rw [hp] at h
      exact Except.noConfusion h
    | some t =>
      rw [hp] at h
      exact ⟨s, t, rfl, hp, (Except.ok.inj h).symm⟩

lemma passthrough_facts : ∀ st ∈ passthroughPairs, st ∈ renameMap ∧
    st.2 ≠ "fecha_hora" ∧ st.1 ≠ "wind_speed_10m" ∧ st.1 ≠ "wind_gusts_10m" := by
  decide

/-- C3: for any API `hourly` object holding the expected keys (in any order)
from which the transformation succeeds, the output wind-speed and wind-gust
columns are exactly the input columns multiplied cell-wise by the exact
rational 3.6 = 36/10 — no rounding — in every row. -/
theorem c3_wind_columns_times_3_6 (hourly : List Col) (df : DataFrame)
    (speedIn gustIn : List Cell)
    (hperm : (hourly.map Prod.fst).Perm expectedKeys)
    (hok : transform hourly = .ok df)
    (hs : alookup "wind_speed_10m" hourly = some speedIn)
    (hg : alookup "wind_gusts_10m" hourly = some gustIn) :
    df.colVal "viento_velocidad_kmh" =
      some (speedIn.map (timesCell ((36 : ℚ) / 10))) ∧
    df.colVal "viento_rafaga_kmh" =
      some (gustIn.map (timesCell ((36 : ℚ) / 10))) := by
  obtain ⟨-, -, h3, h4, -⟩ := transform_ok_spec hperm hok
  rw [hs] at h3
  rw [hg] at h4
  exact ⟨h3, h4⟩

/-- Witness for C3 at a concrete one-row response (10 m/s → 36 km/h,
5 m/s → 18 km/h). -/
theorem c3_wind_columns_times_3_6_witness :
    ((exHourly.map Prod.fst).Perm expectedKeys) ∧
    (exDf.colVal "viento_velocidad_kmh" =
        some ([Cell.num 10].map (timesCell ((36 : ℚ) / 10))) ∧
     exDf.colVal "viento_rafaga_kmh" =
        some ([Cell.num 5].map (timesCell ((36 : ℚ) / 10)))) :=
  ⟨by decide, c3_wind_columns_times_3_6 exHourly exDf [Cell.num 10] [Cell.num 5]
    (by decide) transform_exHourly rfl rfl⟩

/-- C4: whenever the transformation succeeds on an `hourly` object holding
the expected keys in any order, the output column names, in order, are
exactly `columnas_finales`, both in the table and in the written CSV header. -/
theorem c4_output_columns_fixed (hourly : List Col) (df : DataFrame)
    (hperm : (hourly.map Prod.fst).Perm expectedKeys)
    (hok : transform hourly = .ok df) :
    df.cols.map Prod.fst = columnas_finales ∧ df.toCsv.header = columnas_finales := by
  obtain ⟨h1, -, -, -, -⟩ := transform_ok_spec hperm hok
  exact ⟨h1, h1⟩

/-- Witness for C4 at a concrete response with scrambled key order. -/
theorem c4_output_columns_fixed_witness :
    ((exHourly.map Prod.fst).Perm expectedKeys) ∧
    (exDf.cols.map Prod.fst = columnas_finales ∧
     exDf.toCsv.header = columnas_finales) :=
  ⟨by decide, c4_output_columns_fixed exHourly exDf (by decide) transform_exHourly⟩

/-- C9: apart from the two wind columns, every field (temperature, humidity,
dewpoint, pressure, precipitation, wind direction, weather code) appears in
the output with exactly the cells received from the API. -/
theorem c9_passthrough_unchanged (hourly : List Col) (df : DataFrame)
    (src tgt : String) (cells : List Cell)
    (hmem : (src, tgt) ∈ passthroughPairs)
    (hperm : (hourly.map Prod.fst).Perm expectedKeys)
    (hok : transform hourly = .ok df)
    (hin : alookup src hourly = some cells) :
    df.colVal tgt = some cells := by
  obtain ⟨-, h2, -, -, -⟩ := transform_ok_spec hperm hok
  obtain ⟨hrm, htf, hn1, hn2⟩ := passthrough_facts (src, tgt) hmem
  rw [h2 src tgt hrm htf hn1 hn2, hin]

/-- Witness for C9 at the temperature column of the concrete response. -/
theorem c9_passthrough_unchanged_witness :
    ((("temperature_2m", "temperatura_C") ∈ passthroughPairs) ∧
     (exHourly.map Prod.fst).Perm expectedKeys) ∧
    exDf.colVal "temperatura_C" = some [Cell.num 21] :=
  ⟨⟨by decide, by decide⟩,
    c9_passthrough_unchanged exHourly exDf "temperature_2m" "temperatura_C"
      [Cell.num 21] (by decide) (by decide) transform_exHourly rfl⟩

/-- C5: every cell of the output `fecha_hora` column is a string matching
`YYYY-MM-DDTHH:MM` exactly, and parsing it back and reformatting with the
same format returns the identical string. -/
theorem c5_fecha_hora_format_roundtrip (hourly : List Col) (df : DataFrame)
    (out : List Cell)
    (hperm : (hourly.map Prod.fst).Perm expectedKeys)
    (hok : transform hourly = .ok df)
    (hout : df.colVal "fecha_hora" = some out) :
    ∀ c ∈ out, ∃ s t, c = Cell.str s ∧ matchesTSFormat s = true ∧
      parseTimestamp s = some t ∧ formatTimestamp t = s := by
  obtain ⟨-, -, -, -, tIn, tOut, -, hfh, hrel⟩ := transform_ok_spec hperm hok
  have hto : out = tOut := by
    rw [hout] at hfh
    exact Option.some.inj hfh
  intro c hc
  obtain ⟨cIn, hcIn, hfc⟩ := forall₂_mem_right hrel (hto ▸ hc)
  obtain ⟨s0, t, hcs, hpt, hcout⟩ := formatCell_ok hfc
  exact ⟨formatTimestamp t, t, hcout, matchesTSFormat_format t,
    parse_format t (parse_valid s0 t hpt), rfl⟩

/-- Witness for C5 at the concrete output timestamp `2024-01-01T05:07`. -/
theorem c5_fecha_hora_format_roundtrip_witness :
    ((exHourly.map Prod.fst).Perm expectedKeys ∧
     exDf.colVal "fecha_hora" = some [Cell.str "2024-01-01T05:07"]) ∧
    (∃ s t, Cell.str "2024-01-01T05:07" = Cell.str s ∧ matchesTSFormat s = true ∧
      parseTimestamp s = some t ∧ formatTimestamp t = s) :=
  ⟨⟨by decide, rfl⟩,
    c5_fecha_hora_format_roundtrip exHourly exDf [Cell.str "2024-01-01T05:07"]
      (by decide) transform_exHourly rfl
      (Cell.str "2024-01-01T05:07") (by decide)⟩

/-- Every modelled error is a Python `Exception`, so the second handler
catches whatever the first one does not: nothing ever escapes. -/
lemma descargar_uncaught_none (lat lon : ℚ) (sd ed archivo : String)
    (env : Env) (file0 : Option CsvFile) :
    (descargar_datos_historicos lat lon sd ed archivo env file0).uncaught = none := by
  unfold descargar_datos_historicos
  cases h : runPipeline env file0 with
  | mk file1 r =>
    cases r with
    | ok csv => rfl
    | error e => cases e <;> rfl

/-- Every error the pipeline body can raise other than the `IOError` of the
write step itself occurs before `to_csv` runs, so the file at the output
path is still what it was on entry. -/
lemma runPipeline_error_fst (env : Env) (file0 file1 : Option CsvFile) (e : PyErr)
    (h : runPipeline env file0 = (file1, .error e)) (hne : e ≠ PyErr.ioError) :
    file1 = file0 := by
  unfold runPipeline at h
  repeat' split at h
  all_goals simp only [Prod.mk.injEq] at h
  all_goals
    first
      | exact h.1.symm
      | exact absurd (Except.error.inj h.2).symm hne
      | exact Except.noConfusion h.2

/-- C6 counterexample: with a good one-row response and a `to_csv` call
that raises after streaming only the header, the error IS caught
(`uncaught = none`), but the pipeline HAS written to the output path: the
pre-existing file is gone and a truncated file — the header and 0 of the
1 data rows a completed write produces — is committed, refuting the
claim's "returns without the pipeline having written the output file — a
partial or truncated file is never committed". -/
theorem c6_partial_file_committed :
    (runPipeline envPartial (some oldCsv)).2 = .error PyErr.ioError ∧
    (descargar_datos_historicos LATITUD LONGITUD "2024-01-01" "2024-01-02"
      ARCHIVO_SALIDA envPartial (some oldCsv)).uncaught = none ∧
    (descargar_datos_historicos LATITUD LONGITUD "2024-01-01" "2024-01-02"
      ARCHIVO_SALIDA envPartial (some oldCsv)).file ≠ some oldCsv ∧
    (descargar_datos_historicos LATITUD LONGITUD "2024-01-01" "2024-01-02"
      ARCHIVO_SALIDA envPartial (some oldCsv)).file =
      some { header := columnas_finales, rows := [] } ∧
    ((descargar_datos_historicos LATITUD LONGITUD "2024-01-01" "2024-01-02"
      ARCHIVO_SALIDA envWritten (some oldCsv)).file.map fun f => f.rows.length) =
      some 1 :=
  ⟨rfl, rfl, by decide, rfl, rfl⟩

/-- C6 (amended): whenever the pipeline body raises an error of either kind
at any stage, the download function catches it, logs it to the console, and
returns normally; and for every error raised before the write step (fetch,
JSON parsing, transformation — every error but the write's own `IOError`)
the file at the output path is exactly what it was on entry.  A failing
`to_csv` is also caught and logged, but because it truncates the file on
open, the path may then hold a partial file rather than the old one. -/
theorem c6_errors_caught_logged (lat lon : ℚ) (sd ed archivo : String)
    (env : Env) (file0 file1 : Option CsvFile) (e : PyErr)
    (h : runPipeline env file0 = (file1, .error e)) :
    (descargar_datos_historicos lat lon sd ed archivo env file0).file = file1 ∧
    (descargar_datos_historicos lat lon sd ed archivo env file0).log =
      [LogMsg.solicitando sd ed, errorLog e] ∧
    (descargar_datos_historicos lat lon sd ed archivo env file0).uncaught = none ∧
    (e ≠ PyErr.ioError → file1 = file0) := by
  have hmain : (descargar_datos_historicos lat lon sd ed archivo env file0).file = file1 ∧
      (descargar_datos_historicos lat lon sd ed archivo env file0).log =
        [LogMsg.solicitando sd ed, errorLog e] ∧
      (descargar_datos_historicos lat lon sd ed archivo env file0).uncaught = none := by
    unfold descargar_datos_historicos
    rw [h]
    cases e <;> exact ⟨rfl, rfl, rfl⟩
  exact ⟨hmain.1, hmain.2.1, hmain.2.2,
    fun hne => runPipeline_error_fst env file0 file1 e h hne⟩

/-- Witness for C6's amended claim at a concrete HTTP 400 environment with
a pre-existing file: the error precedes the write, so the file survives. -/
theorem c6_errors_caught_logged_witness :
    runPipeline env400 (some oldCsv) =
      (some oldCsv, .error (PyErr.httpError 400 "Bad Request")) ∧
    ((descargar_datos_historicos LATITUD LONGITUD "2024-01-01" "2024-01-02"
        ARCHIVO_SALIDA env400 (some oldCsv)).file = some oldCsv ∧
     (descargar_datos_historicos LATITUD LONGITUD "2024-01-01" "2024-01-02"
        ARCHIVO_SALIDA env400 (some oldCsv)).log =
      [LogMsg.solicitando "2024-01-01" "2024-01-02",
       errorLog (PyErr.httpError 400 "Bad Request")] ∧
     (descargar_datos_historicos LATITUD LONGITUD "2024-01-01" "2024-01-02"
        ARCHIVO_SALIDA env400 (some oldCsv)).uncaught = none ∧
     (PyErr.httpError 400 "Bad Request" ≠ PyErr.ioError →
       some oldCsv = some oldCsv)) :=
  ⟨rfl, c6_errors_caught_logged LATITUD LONGITUD "2024-01-01" "2024-01-02"
    ARCHIVO_SALIDA env400 (some oldCsv) (some oldCsv)
    (PyErr.httpError 400 "Bad Request") rfl⟩

/-- C10: for every possible response or failure the download function never
propagates an exception to its caller: both handlers together catch every
exception its body can raise, and the function returns normally. -/
theorem c10_no_exception_escapes (lat lon : ℚ) (sd ed archivo : String)
    (env : Env) (file0 : Option CsvFile) :
    (descargar_datos_historicos lat lon sd ed archivo env file0).uncaught = none :=
  descargar_uncaught_none lat lon sd ed archivo env file0

/-- C7: whatever the outcome of the download (success, HTTP error, or any
other failure), the process exits with status code 0. -/
theorem c7_exit_code_zero (now : Date) (env : Env) (file0 : Option CsvFile) :
    (mainRun now env file0).exitCode = 0 := by
  unfold mainRun
  rw [descargar_uncaught_none]
  rfl

/-- C8: when every `hourly` array is empty, the run creates the output file
with exactly the fixed header row and zero data rows. -/
theorem c8_empty_hourly_header_only :
    (descargar_datos_historicos LATITUD LONGITUD "2024-01-01" "2024-01-02"
      ARCHIVO_SALIDA envEmpty none).file =
    some { header := columnas_finales, rows := [] } := rfl

/-- C1 counterexample: with an HTTP 400 response and a pre-existing output
file, after the run the pre-existing file is NOT left as it was — the
`__main__` block (Datos.py 117-119) deletes it before the request, and the
failed pipeline never rewrites it. -/
theorem c1_prev_file_not_preserved :
    (mainRun ⟨2026, 10, 12⟩ env400 (some oldCsv)).run.file ≠ some oldCsv := by
  decide

/-- C1 (amended): on an HTTP 400 response the download function itself
creates or modifies no file (the file at the output path stays exactly what
it was when the function was called) and an `HTTPError` is reported on the
console; but the `__main__` block deletes any pre-existing output file
before the request, so after the whole run no file exists at the path —
a pre-existing file is not preserved. -/
theorem c1_http400_no_write_prior_deleted (env : Env) (r : Response)
    (file0 : Option CsvFile) (lat lon : ℚ) (sd ed archivo : String) (now : Date)
    (hr : env.fetch = .got r) (hst : r.status = 400) :
    (descargar_datos_historicos lat lon sd ed archivo env file0).file = file0 ∧
    (descargar_datos_historicos lat lon sd ed archivo env file0).log =
      [LogMsg.solicitando sd ed, LogMsg.errorHTTP 400 r.text] ∧
    (mainRun now env file0).run.file = none := by
  have hp : ∀ f : Option CsvFile,
      runPipeline env f = (f, .error (.httpError 400 r.text)) := by
    intro f
    unfold runPipeline
    rw [hr]
    dsimp only
    rw [if_pos (show 400 ≤ r.status ∧ r.status < 600 by omega)]
    rw [hst]
  refine ⟨?_, ?_, ?_⟩
  · unfold descargar_datos_historicos
    rw [hp file0]
  · unfold descargar_datos_historicos
    rw [hp file0]
  · unfold mainRun descargar_datos_historicos
    rw [hp (borrarAnterior file0)]
    cases file0 <;> rfl

/-- Witness for C1's amended claim at the concrete 400 environment. -/
theorem c1_http400_no_write_prior_deleted_witness :
    (env400.fetch = FetchOutcome.got
        { status := 400, text := "Bad Request", body := none } ∧
      ({ status := 400, text := "Bad Request",
         body := none } : Response).status = 400) ∧
    ((descargar_datos_historicos LATITUD LONGITUD "2024-01-01" "2024-01-02"
        ARCHIVO_SALIDA env400 (some oldCsv)).file = some oldCsv ∧
     (descargar_datos_historicos LATITUD LONGITUD "2024-01-01" "2024-01-02"
        ARCHIVO_SALIDA env400 (some oldCsv)).log =
      [LogMsg.solicitando "2024-01-01" "2024-01-02",
       LogMsg.errorHTTP 400 "Bad Request"] ∧
     (mainRun ⟨2026, 10, 12⟩ env400 (some oldCsv)).run.file = none) :=
  ⟨⟨rfl, rfl⟩, c1_http400_no_write_prior_deleted env400
    { status := 400, text := "Bad Request", body := none }
    (some oldCsv) LATITUD LONGITUD "2024-01-01" "2024-01-02" ARCHIVO_SALIDA
    ⟨2026, 10, 12⟩ rfl rfl⟩

/-- C2: the end date the `__main__` block sends is the CURRENT calendar
date (`datetime.now().strftime("%Y-%m-%d")`, Datos.py 110), not the day
before it — contradicting both the spec sentence and the code's own
comments (`Rango: 2024-01-01 → hasta ayer`, Datos.py 4 and 108).  Shown at
the concrete invocation date 2026-10-12. -/
theorem c2_end_date_is_today_not_yesterday :
    (mainRun ⟨2026, 10, 12⟩ env400 none).run.sentParams.end_date =
      formatDate ⟨2026, 10, 12⟩ ∧
    formatDate ⟨2026, 10, 12⟩ = "2026-10-12" ∧
    formatDate (prevDay ⟨2026, 10, 12⟩) = "2026-10-11" ∧
    (mainRun ⟨2026, 10, 12⟩ env400 none).run.sentParams.end_date ≠
      formatDate (prevDay ⟨2026, 10, 12⟩) := by
  refine ⟨rfl, by decide, by decide, by decide⟩
